import Mathlib

/-!
Verification development for the sync-point repository: a two-party
rendezvous service.  The Rust sources are embedded shallowly:

* `ApiResponse` and its constructors follow src/api/response.rs.
* `WaitPoint` (counter plus Notify object) follows src/api/app_state.rs
  and src/api/sync_service.rs; the Notify object is modelled by the
  number of notify_one calls it has received.
* The registry (a HashMap of String to Arc WaitPoint behind a
  parking_lot RwLock) is modelled by an association list from keys to
  indices into a heap of points, so that Arc sharing (a waiter keeps its
  handle after the map entry is removed) is represented faithfully.
  Try-style lock acquisitions are nondeterministic in the environment,
  so each acquisition outcome is an explicit Boolean parameter.
* `wait_for_party` follows the route handler in src/api/routes.rs: the
  role of an arrival is the pre-increment value of the fetch-and-add on
  parties_count, dispatched to the per-role handlers whose bodies follow
  src/api/sync_service.rs.  The outcome of the bounded wait of the first
  party (signalled before the deadline or not) is again an environment
  Boolean.
* Timeout configuration and validation follow src/app.rs.
-/

namespace SyncPoint

/-- HTTP status classes used by the handlers (rocket http Status values). -/
inductive HttpStatus where
  | ok
  | requestTimeout
  | conflict
  | serviceUnavailable
deriving DecidableEq, Repr

/-- The status field of a response body (ResponseStatus in response.rs). -/
inductive ResponseStatus where
  | success
  | timeout
  | error
deriving DecidableEq, Repr

/-- The JSON response body (ApiResponse in response.rs).  The field
timeout_duration_sec is optional and is skipped during serialization
when it is none. -/
structure ApiResponse where
  status : ResponseStatus
  message : String
  timeout_duration_sec : Option Nat
deriving DecidableEq, Repr

/-- ApiResponse.success from response.rs: status success, message
formatted as bracketed unique id followed by the given message, no
timeout field. -/
def ApiResponse.success (message : String) (unique_id : String) : ApiResponse :=
  { status := ResponseStatus.success
    message := "[" ++ unique_id ++ "] " ++ message
    timeout_duration_sec := none }

/-- ApiResponse.timeout from response.rs: status timeout, fixed message
with the unique id, and the configured duration in seconds. -/
def ApiResponse.timeout (durationSecs : Nat) (unique_id : String) : ApiResponse :=
  { status := ResponseStatus.timeout
    message := "[" ++ unique_id ++ "] Request timed out"
    timeout_duration_sec := some durationSecs }

/-- ApiResponse.error from response.rs: status error, the message as
given, no timeout field. -/
def ApiResponse.error (message : String) : ApiResponse :=
  { status := ResponseStatus.error
    message := message
    timeout_duration_sec := none }

/-- ApiResponse::service_unavailable from response.rs: a Custom response
pairing the ServiceUnavailable status class with a generic error body. -/
def ApiResponse.service_unavailable : HttpStatus × ApiResponse :=
  (HttpStatus.serviceUnavailable, ApiResponse.error ("Service temporarily unavailable"))

/-- The fields that appear in the serialized JSON of a response body:
status and message always, timeout_duration_sec only when it is some
(the serde attribute skip_serializing_if Option::is_none in
response.rs). -/
def serializedFields (r : ApiResponse) : List String :=
  ["status", "message"] ++
    (if r.timeout_duration_sec.isSome then ["timeout_duration_sec"] else [])

/-- A rendezvous point (WaitPoint in app_state.rs and sync_service.rs):
an atomic arrival counter and a Notify object, the latter modelled by
the number of notify_one calls it has received. -/
structure WaitPoint where
  parties_count : Nat
  notify : Nat
deriving DecidableEq, Repr

/-- WaitPoint::new: counter 0, fresh Notify. -/
def WaitPoint.new : WaitPoint :=
  { parties_count := 0, notify := 0 }

/-- The service state: a heap of points (index plays the role of Arc
identity) and the registry map from keys to point indices (the HashMap
wait_points).  A waiter that has obtained an index keeps it even after
the map entry is removed, exactly as an Arc handle survives removal. -/
structure SyncState where
  points : List WaitPoint
  wait_points : List (String × Nat)
deriving DecidableEq, Repr

/-- Lookup in the registry map (HashMap::get). -/
def lookupIdx : List (String × Nat) → String → Option Nat
  | [], _ => none
  | e :: rest, k => if e.1 = k then some e.2 else lookupIdx rest k

/-- Removal from the registry map (HashMap::remove).  Keys are unique in
a HashMap, so removing every matching entry of the association list is
the same operation. -/
def removeKey : List (String × Nat) → String → List (String × Nat)
  | [], _ => []
  | e :: rest, k => if e.1 = k then removeKey rest k else e :: removeKey rest k

/-- Insertion into the registry map (HashMap::insert, which replaces any
existing entry for the key). -/
def insertKey (m : List (String × Nat)) (k : String) (v : Nat) : List (String × Nat) :=
  (k, v) :: removeKey m k

/-- Dereference a point handle.  Out-of-range indices never occur on
reachable paths; the default keeps the function total. -/
def pointAt (s : SyncState) (i : Nat) : WaitPoint :=
  s.points.getD i WaitPoint.new

/-- Replace the point behind a handle. -/
def setPoint (s : SyncState) (i : Nat) (p : WaitPoint) : SyncState :=
  { s with points := s.points.set i p }

/-- point.parties_count.fetch_add(1, SeqCst): returns the value observed
immediately before the increment, together with the updated state. -/
def fetch_add (s : SyncState) (i : Nat) : Nat × SyncState :=
  ((pointAt s i).parties_count,
    setPoint s i { pointAt s i with parties_count := (pointAt s i).parties_count + 1 })

/-- point.notify.notify_one(): one more notify_one call on the Notify
object of the point. -/
def notify_one (s : SyncState) (i : Nat) : SyncState :=
  setPoint s i { pointAt s i with notify := (pointAt s i).notify + 1 }

/-- SyncService::get_or_create_point from sync_service.rs (the same
logic as AppState::get_or_create_point in app_state.rs and the closure
in routes.rs).  canRead and canWrite are the outcomes of the two
try-style lock acquisitions.  A failed acquisition yields the
service-unavailable response and no state change. -/
def get_or_create_point (canRead canWrite : Bool) (unique_id : String) (s : SyncState) :
    Except (HttpStatus × ApiResponse) Nat × SyncState :=
  if canRead then
    match lookupIdx s.wait_points unique_id with
    | some i => (Except.ok i, s)
    | none =>
      if canWrite then
        (Except.ok s.points.length,
          { points := s.points ++ [WaitPoint.new]
            wait_points := insertKey s.wait_points unique_id s.points.length })
      else (Except.error ApiResponse.service_unavailable, s)
  else (Except.error ApiResponse.service_unavailable, s)

/-- SyncService::cleanup_wait_point from sync_service.rs (same logic as
AppState::cleanup_wait_point): under a successful try_write the entry is
removed, whether present or not, and the call succeeds; a failed
acquisition yields the service-unavailable response and no state
change. -/
def cleanup_wait_point (canWrite : Bool) (unique_id : String) (s : SyncState) :
    Except (HttpStatus × ApiResponse) Unit × SyncState :=
  if canWrite then
    (Except.ok (), { s with wait_points := removeKey s.wait_points unique_id })
  else (Except.error ApiResponse.service_unavailable, s)

/-- SyncService::handle_first_party from sync_service.rs: the party
waits on the Notify with the configured timeout (signaled tells whether
the notification arrived before the deadline), then unconditionally runs
cleanup; a cleanup lock failure is returned as is, otherwise the
response is success on signal and timeout on elapsed deadline. -/
def handle_first_party (cleanupCanWrite signaled : Bool) (timeoutSecs : Nat)
    (unique_id : String) (s : SyncState) : (HttpStatus × ApiResponse) × SyncState :=
  let c := cleanup_wait_point cleanupCanWrite unique_id s
  match c.1 with
  | Except.error e => (e, c.2)
  | Except.ok _ =>
    if signaled then
      ((HttpStatus.ok, ApiResponse.success ("Welcome! (first party)") unique_id), c.2)
    else
      ((HttpStatus.requestTimeout, ApiResponse.timeout timeoutSecs unique_id), c.2)

/-- SyncService::handle_second_party from sync_service.rs: one
notify_one call on the point, then an immediate success response. -/
def handle_second_party (unique_id : String) (i : Nat) (s : SyncState) :
    (HttpStatus × ApiResponse) × SyncState :=
  ((HttpStatus.ok, ApiResponse.success ("Welcome! (second party)") unique_id),
    notify_one s i)

/-- SyncService::handle_extra_party from sync_service.rs (same body as
the helper in routes.rs): an immediate conflict response and nothing
else. -/
def handle_extra_party (unique_id : String) (previous : Nat) (s : SyncState) :
    (HttpStatus × ApiResponse) × SyncState :=
  ((HttpStatus.conflict, ApiResponse.error ("Only 2 parties allowed at a time")), s)

/-- The role of an arrival as a function of the pre-increment counter
value, exactly the match in wait_for_party (routes.rs lines 54-58). -/
inductive Role where
  | first
  | second
  | extra
deriving DecidableEq, Repr

/-- The match arms of wait_for_party: 0 is first, 1 is second, anything
else is extra. -/
def decideRole : Nat → Role
  | 0 => Role.first
  | 1 => Role.second
  | _ => Role.extra

/-- The route handler wait_for_party from routes.rs: get or create the
point, fetch-and-add the arrival counter, and dispatch on the observed
pre-increment value to the role handlers. -/
def wait_for_party (canRead canWrite cleanupCanWrite signaled : Bool)
    (timeoutSecs : Nat) (unique_id : String) (s : SyncState) :
    (HttpStatus × ApiResponse) × SyncState :=
  let g := get_or_create_point canRead canWrite unique_id s
  match g.1 with
  | Except.error e => (e, g.2)
  | Except.ok i =>
    let fa := fetch_add g.2 i
    match fa.1 with
    | 0 => handle_first_party cleanupCanWrite signaled timeoutSecs unique_id fa.2
    | 1 => handle_second_party unique_id i fa.2
    | _ => handle_extra_party unique_id fa.1 fa.2

/-- MIN_TIMEOUT from app.rs. -/
def MIN_TIMEOUT : Nat := 5

/-- MAX_TIMEOUT from app.rs. -/
def MAX_TIMEOUT : Nat := 300

/-- DEFAULT_TIMEOUT from app.rs. -/
def DEFAULT_TIMEOUT : Nat := 10

/-- App::validate_timeout from app.rs: values below MIN_TIMEOUT or above
MAX_TIMEOUT are rejected with a ConfigError message. -/
def validate_timeout (timeout : Nat) : Except String Unit :=
  if timeout < MIN_TIMEOUT then
    Except.error ("Timeout cannot be less than " ++ toString MIN_TIMEOUT ++ " seconds")
  else if timeout > MAX_TIMEOUT then
    Except.error ("timeout cannot exceed " ++ toString MAX_TIMEOUT ++ " seconds")
  else Except.ok ()

/-- App::new from app.rs, restricted to the timeout setting it consumes:
the configuration collaborator yields the configured value when one is
set and DEFAULT_TIMEOUT otherwise (set_default), then the value is
validated; on validation failure construction of the App fails with the
error, so the process does not serve traffic (the expect in
build_rocket). -/
def App.new (configTimeout : Option Nat) : Except String Nat :=
  let timeout_secs := configTimeout.getD DEFAULT_TIMEOUT
  match validate_timeout timeout_secs with
  | Except.ok _ => Except.ok timeout_secs
  | Except.error e => Except.error e

/-! Helper lemmas about the registry map and the point heap. -/

theorem lookupIdx_removeKey (m : List (String × Nat)) (k k' : String) :
    lookupIdx (removeKey m k) k' = if k' = k then none else lookupIdx m k' := by
  induction m with
  | nil => simp [removeKey, lookupIdx]
  | cons e rest ih =>
    by_cases hkk : k' = k
    · subst hkk
      by_cases hek : e.1 = k' <;> simp [removeKey, lookupIdx, hek, ih]
    · by_cases hek : e.1 = k
      · have hek' : e.1 ≠ k' := fun h => hkk (h.symm.trans hek)
        have hkk' : k ≠ k' := fun h => hkk h.symm
        simp [removeKey, lookupIdx, hek, hek', ih, hkk, hkk']
      · by_cases hek' : e.1 = k' <;>
          simp [removeKey, lookupIdx, hek, hek', ih, hkk]

theorem removeKey_removeKey (m : List (String × Nat)) (k : String) :
    removeKey (removeKey m k) k = removeKey m k := by
  induction m with
  | nil => simp [removeKey]
  | cons e rest ih =>
    by_cases hek : e.1 = k <;> simp [removeKey, hek, ih]

theorem lookupIdx_insertKey (m : List (String × Nat)) (k k' : String) (v : Nat) :
    lookupIdx (insertKey m k v) k' = if k = k' then some v else lookupIdx m k' := by
  by_cases hkk : k = k' <;>
    simp [insertKey, lookupIdx, hkk, lookupIdx_removeKey]
  intro h
  exact absurd h.symm hkk

theorem getD_set (l : List WaitPoint) (i j : Nat) (p d : WaitPoint) :
    (l.set i p).getD j d = if i = j ∧ i < l.length then p else l.getD j d := by
  induction l generalizing i j with
  | nil => simp [List.getD]
  | cons x rest ih =>
    cases i with
    | zero =>
      cases j with
      | zero => simp
      | succ j => simp
    | succ i =>
      cases j with
      | zero => simp
      | succ j =>
        simp only [List.set, List.getD_cons_succ, ih, List.length_cons]
        by_cases hij : i = j <;> simp [hij]

theorem getD_append_one (l : List WaitPoint) (x d : WaitPoint) (j : Nat) :
    (l ++ [x]).getD j d = if j = l.length then x else l.getD j d := by
  induction l generalizing j with
  | nil =>
    cases j with
    | zero => simp
    | succ j => simp [List.getD]
  | cons y rest ih =>
    cases j with
    | zero => simp
    | succ j =>
      simp only [List.cons_append, List.getD_cons_succ, List.length_cons, ih]
      by_cases hj : j = rest.length <;> simp [hj]

/-- State after the fetch-and-add of an arrival: only the parties_count
field of the addressed point changes, nothing else. -/
theorem pointAt_fetch_add (s : SyncState) (i j : Nat) :
    pointAt (fetch_add s i).2 j =
      if i = j ∧ i < s.points.length then
        { pointAt s i with parties_count := (pointAt s i).parties_count + 1 }
      else pointAt s j := by
  simp only [fetch_add, setPoint, pointAt]
  rw [getD_set]

theorem wait_points_fetch_add (s : SyncState) (i : Nat) :
    (fetch_add s i).2.wait_points = s.wait_points := rfl

theorem points_length_fetch_add (s : SyncState) (i : Nat) :
    (fetch_add s i).2.points.length = s.points.length := by
  simp [fetch_add, setPoint]

theorem fetch_add_fst (s : SyncState) (i : Nat) :
    (fetch_add s i).1 = (pointAt s i).parties_count := rfl

/-- notify_one changes only the notify field of the addressed point. -/
theorem pointAt_notify_one (s : SyncState) (i j : Nat) :
    pointAt (notify_one s i) j =
      if i = j ∧ i < s.points.length then
        { pointAt s i with notify := (pointAt s i).notify + 1 }
      else pointAt s j := by
  simp only [notify_one, setPoint, pointAt]
  rw [getD_set]

theorem wait_points_notify_one (s : SyncState) (i : Nat) :
    (notify_one s i).wait_points = s.wait_points := rfl

/-- The two successful outcomes of get_or_create_point: either the read
lock was acquired and the key was found, and the state is untouched, or
both locks were acquired, the key was absent, and exactly the fresh
point for the key was added. -/
theorem get_or_create_point_ok_cases (canRead canWrite : Bool) (uid : String)
    (s : SyncState) (i : Nat) (s' : SyncState)
    (h : get_or_create_point canRead canWrite uid s = (Except.ok i, s')) :
    (canRead = true ∧ lookupIdx s.wait_points uid = some i ∧ s' = s) ∨
    (canRead = true ∧ canWrite = true ∧ lookupIdx s.wait_points uid = none ∧
      i = s.points.length ∧
      s' = { points := s.points ++ [WaitPoint.new]
             wait_points := insertKey s.wait_points uid s.points.length }) := by
  cases canRead with
  | false => simp [get_or_create_point] at h
  | true =>
    cases hl : lookupIdx s.wait_points uid with
    | some j =>
      simp [get_or_create_point, hl] at h
      exact Or.inl ⟨rfl, by rw [h.1], h.2.symm⟩
    | none =>
      cases canWrite with
      | false => simp [get_or_create_point, hl] at h
      | true =>
        simp [get_or_create_point, hl] at h
        exact Or.inr ⟨rfl, rfl, rfl, h.1.symm, h.2.symm⟩

/-- A point freshly introduced by the create branch has counter 0, so an
arrival that observes a nonzero pre-increment value necessarily found an
existing entry and left the registry untouched. -/
theorem get_or_create_point_found_of_pos (canRead canWrite : Bool) (uid : String)
    (s : SyncState) (i : Nat) (s' : SyncState)
    (h : get_or_create_point canRead canWrite uid s = (Except.ok i, s'))
    (hpos : 0 < (pointAt s' i).parties_count) :
    lookupIdx s.wait_points uid = some i ∧ s' = s ∧ i < s.points.length := by
  rcases get_or_create_point_ok_cases canRead canWrite uid s i s' h with
    ⟨_, hfound, hs⟩ | ⟨_, _, _, hi, hs⟩
  · refine ⟨hfound, hs, ?_⟩
    by_contra hilen
    have hdef : pointAt s' i = WaitPoint.new := by
      subst hs
      simp [pointAt, List.getD_eq_getElem?_getD, List.getElem?_eq_none (Nat.le_of_not_lt hilen)]
    rw [hdef] at hpos
    simp [WaitPoint.new] at hpos
  · exfalso
    have hdef : pointAt s' i = WaitPoint.new := by
      subst hs hi
      simp [pointAt, getD_append_one]
    rw [hdef] at hpos
    simp [WaitPoint.new] at hpos

/-- Global shape of a run of the route handler once the point has been
obtained: the dispatch is by the pre-increment counter value alone. -/
theorem wait_for_party_run (canRead canWrite cw sg : Bool) (t : Nat) (uid : String)
    (s : SyncState) (i : Nat) (s' : SyncState)
    (h : get_or_create_point canRead canWrite uid s = (Except.ok i, s')) :
    wait_for_party canRead canWrite cw sg t uid s =
      match (pointAt s' i).parties_count with
      | 0 => handle_first_party cw sg t uid (fetch_add s' i).2
      | 1 => handle_second_party uid i (fetch_add s' i).2
      | Nat.succ (Nat.succ n) =>
          handle_extra_party uid (Nat.succ (Nat.succ n)) (fetch_add s' i).2 := by
  have hfa : (fetch_add s' i).1 = (pointAt s' i).parties_count := rfl
  simp only [wait_for_party, h]
  rcases hc : (pointAt s' i).parties_count with _ | _ | n <;>
    simp [hfa, hc]

/-- C1: for every arrival that obtained its point, the role is
determined solely by the counter value observed immediately before the
atomic fetch-and-increment: previous 0 is handled as first party,
previous 1 as second party, previous at least 2 as extra party; the
executed branch is a function of that pre-increment value alone, and no
other state read enters the dispatch. -/
theorem role_determined_solely_by_previous
    (canRead canWrite cw sg : Bool) (t : Nat) (uid : String)
    (s : SyncState) (i : Nat) (s' : SyncState)
    (h : get_or_create_point canRead canWrite uid s = (Except.ok i, s')) :
    wait_for_party canRead canWrite cw sg t uid s =
      match decideRole ((pointAt s' i).parties_count) with
      | Role.first => handle_first_party cw sg t uid (fetch_add s' i).2
      | Role.second => handle_second_party uid i (fetch_add s' i).2
      | Role.extra =>
          handle_extra_party uid ((pointAt s' i).parties_count) (fetch_add s' i).2 := by
  rw [wait_for_party_run canRead canWrite cw sg t uid s i s' h]
  rcases hc : (pointAt s' i).parties_count with _ | _ | n <;>
    simp [hc, decideRole]

/-- Witness for C1 at a concrete input: an arrival for key A on the
empty state creates the point, observes previous 0 and is dispatched to
the first-party handler. -/
theorem role_determined_solely_by_previous_witness :
    get_or_create_point true true "A" ⟨[], []⟩ =
      (Except.ok 0, ⟨[WaitPoint.new], [("A", 0)]⟩) ∧
    wait_for_party true true true true 10 "A" ⟨[], []⟩ =
      match decideRole ((pointAt ⟨[WaitPoint.new], [("A", 0)]⟩ 0).parties_count) with
      | Role.first =>
          handle_first_party true true 10 "A" (fetch_add ⟨[WaitPoint.new], [("A", 0)]⟩ 0).2
      | Role.second =>
          handle_second_party "A" 0 (fetch_add ⟨[WaitPoint.new], [("A", 0)]⟩ 0).2
      | Role.extra =>
          handle_extra_party "A" ((pointAt ⟨[WaitPoint.new], [("A", 0)]⟩ 0).parties_count)
            (fetch_add ⟨[WaitPoint.new], [("A", 0)]⟩ 0).2 :=
  ⟨rfl, role_determined_solely_by_previous true true true true 10 "A"
    ⟨[], []⟩ 0 ⟨[WaitPoint.new], [("A", 0)]⟩ rfl⟩

/-- C2: an arrival that observes a pre-increment counter value of at
least 2 gets the conflict response, and the extra-party handling
mutates nothing: the final state is exactly the state produced by the
role-deciding fetch-and-increment, so the registry map is unchanged,
the entry for the key is still present, and the Notify object of the
point is untouched; the handler itself is the identity on the state. -/
theorem extra_party_no_mutation
    (canRead canWrite cw sg : Bool) (t : Nat) (uid : String)
    (s : SyncState) (i : Nat) (s' : SyncState)
    (h : get_or_create_point canRead canWrite uid s = (Except.ok i, s'))
    (hprev : 2 ≤ (pointAt s' i).parties_count) :
    (wait_for_party canRead canWrite cw sg t uid s).1 =
      (HttpStatus.conflict, ApiResponse.error ("Only 2 parties allowed at a time")) ∧
    (wait_for_party canRead canWrite cw sg t uid s).2 = (fetch_add s i).2 ∧
    (wait_for_party canRead canWrite cw sg t uid s).2.wait_points = s.wait_points ∧
    lookupIdx (wait_for_party canRead canWrite cw sg t uid s).2.wait_points uid = some i ∧
    (pointAt (wait_for_party canRead canWrite cw sg t uid s).2 i).notify =
      (pointAt s i).notify ∧
    (∀ p q st, handle_extra_party p q st =
      ((HttpStatus.conflict, ApiResponse.error ("Only 2 parties allowed at a time")), st)) := by
  obtain ⟨hfound, hs, hlen⟩ :=
    get_or_create_point_found_of_pos canRead canWrite uid s i s' h
      (lt_of_lt_of_le (by omega) hprev)
  rw [hs] at hprev
  obtain ⟨n, hn⟩ : ∃ n, (pointAt s i).parties_count = Nat.succ (Nat.succ n) :=
    ⟨(pointAt s i).parties_count - 2, by omega⟩
  have hrun := wait_for_party_run canRead canWrite cw sg t uid s i s' h
  rw [hs, hn] at hrun
  rw [hrun]
  refine ⟨rfl, rfl, rfl, ?_, ?_, fun p q st => rfl⟩
  · simpa [handle_extra_party, wait_points_fetch_add] using hfound
  · simp [handle_extra_party, pointAt_fetch_add, hlen]

/-- Witness for C2 at a concrete input: key A is registered with counter
2 (both parties already arrived); a third arrival observes previous 2
and is rejected with the conflict response, leaving everything in
place. -/
theorem extra_party_no_mutation_witness :
    get_or_create_point true true "A" ⟨[⟨2, 1⟩], [("A", 0)]⟩ =
      (Except.ok 0, ⟨[⟨2, 1⟩], [("A", 0)]⟩) ∧
    2 ≤ (pointAt ⟨[⟨2, 1⟩], [("A", 0)]⟩ 0).parties_count ∧
    ((wait_for_party true true true true 10 "A" ⟨[⟨2, 1⟩], [("A", 0)]⟩).1 =
      (HttpStatus.conflict, ApiResponse.error ("Only 2 parties allowed at a time")) ∧
    (wait_for_party true true true true 10 "A" ⟨[⟨2, 1⟩], [("A", 0)]⟩).2 =
      (fetch_add ⟨[⟨2, 1⟩], [("A", 0)]⟩ 0).2 ∧
    (wait_for_party true true true true 10 "A" ⟨[⟨2, 1⟩], [("A", 0)]⟩).2.wait_points =
      SyncState.wait_points ⟨[⟨2, 1⟩], [("A", 0)]⟩ ∧
    lookupIdx (wait_for_party true true true true 10 "A"
      ⟨[⟨2, 1⟩], [("A", 0)]⟩).2.wait_points "A" = some 0 ∧
    (pointAt (wait_for_party true true true true 10 "A" ⟨[⟨2, 1⟩], [("A", 0)]⟩).2 0).notify =
      (pointAt ⟨[⟨2, 1⟩], [("A", 0)]⟩ 0).notify ∧
    (∀ p q st, handle_extra_party p q st =
      ((HttpStatus.conflict, ApiResponse.error ("Only 2 parties allowed at a time")), st))) :=
  ⟨rfl, by simp [pointAt],
    extra_party_no_mutation true true true true 10 "A"
      ⟨[⟨2, 1⟩], [("A", 0)]⟩ 0 ⟨[⟨2, 1⟩], [("A", 0)]⟩ rfl (by simp [pointAt])⟩

/-- C3: a first party (pre-increment value 0), once its wait resolves
and the cleanup lock is acquired, removes the key from the registry on
both resolution paths: on signal the response is success, on elapsed
deadline the response is the timeout response (status class
RequestTimeout with a timeout body, not an error); afterwards the key is
absent, so the next arrival for it creates a fresh point with counter 0
and is classified first. -/
theorem first_party_unconditional_cleanup
    (canRead canWrite sg : Bool) (t : Nat) (uid : String)
    (s : SyncState) (i : Nat) (s' : SyncState)
    (h : get_or_create_point canRead canWrite uid s = (Except.ok i, s'))
    (hprev : (pointAt s' i).parties_count = 0) :
    (wait_for_party canRead canWrite true sg t uid s).1 =
      (if sg then (HttpStatus.ok, ApiResponse.success ("Welcome! (first party)") uid)
       else (HttpStatus.requestTimeout, ApiResponse.timeout t uid)) ∧
    lookupIdx (wait_for_party canRead canWrite true sg t uid s).2.wait_points uid = none ∧
    (get_or_create_point true true uid
        (wait_for_party canRead canWrite true sg t uid s).2).1 =
      Except.ok (wait_for_party canRead canWrite true sg t uid s).2.points.length ∧
    pointAt
        (get_or_create_point true true uid
          (wait_for_party canRead canWrite true sg t uid s).2).2
        (wait_for_party canRead canWrite true sg t uid s).2.points.length =
      WaitPoint.new ∧
    decideRole
        (pointAt
          (get_or_create_point true true uid
            (wait_for_party canRead canWrite true sg t uid s).2).2
          (wait_for_party canRead canWrite true sg t uid s).2.points.length).parties_count =
      Role.first := by
  have hrun := wait_for_party_run canRead canWrite true sg t uid s i s' h
  rw [hprev] at hrun
  rw [hrun]
  have h2 : (handle_first_party true sg t uid (fetch_add s' i).2).2.wait_points =
      removeKey s'.wait_points uid := by
    cases sg <;>
      simp [handle_first_party, cleanup_wait_point, wait_points_fetch_add]
  have hnone :
      lookupIdx (handle_first_party true sg t uid (fetch_add s' i).2).2.wait_points uid =
        none := by
    rw [h2]
    simp [lookupIdx_removeKey]
  refine ⟨?_, hnone, ?_, ?_, ?_⟩
  · cases sg <;> simp [handle_first_party, cleanup_wait_point]
  · simp [get_or_create_point, hnone]
  · simp [get_or_create_point, hnone, pointAt, getD_append_one]
  · simp [get_or_create_point, hnone, pointAt, getD_append_one, decideRole, WaitPoint.new]

/-- Witness for C3 at a concrete input: a solitary arrival for key A on
the empty state observes previous 0, times out, and afterwards the key
is absent and a new arrival would be first again. -/
theorem first_party_unconditional_cleanup_witness :
    get_or_create_point true true "A" ⟨[], []⟩ =
      (Except.ok 0, ⟨[WaitPoint.new], [("A", 0)]⟩) ∧
    (pointAt ⟨[WaitPoint.new], [("A", 0)]⟩ 0).parties_count = 0 ∧
    ((wait_for_party true true true false 10 "A" ⟨[], []⟩).1 =
      (if false then (HttpStatus.ok, ApiResponse.success ("Welcome! (first party)") "A")
       else (HttpStatus.requestTimeout, ApiResponse.timeout 10 "A")) ∧
    lookupIdx (wait_for_party true true true false 10 "A" ⟨[], []⟩).2.wait_points "A" =
      none ∧
    (get_or_create_point true true "A"
        (wait_for_party true true true false 10 "A" ⟨[], []⟩).2).1 =
      Except.ok (wait_for_party true true true false 10 "A" ⟨[], []⟩).2.points.length ∧
    pointAt
        (get_or_create_point true true "A"
          (wait_for_party true true true false 10 "A" ⟨[], []⟩).2).2
        (wait_for_party true true true false 10 "A" ⟨[], []⟩).2.points.length =
      WaitPoint.new ∧
    decideRole
        (pointAt
          (get_or_create_point true true "A"
            (wait_for_party true true true false 10 "A" ⟨[], []⟩).2).2
          (wait_for_party true true true false 10 "A" ⟨[], []⟩).2.points.length).parties_count =
      Role.first) :=
  ⟨rfl, rfl,
    first_party_unconditional_cleanup true true false 10 "A"
      ⟨[], []⟩ 0 ⟨[WaitPoint.new], [("A", 0)]⟩ rfl rfl⟩

/-- C4: a second party (pre-increment value 1) returns the success
response immediately, calls notify_one on the point exactly once (the
notify count of the point grows by exactly one), and does not touch the
registry map: the key still maps to the same point and no entry is
inserted or removed. -/
theorem second_party_signals_once
    (canRead canWrite cw sg : Bool) (t : Nat) (uid : String)
    (s : SyncState) (i : Nat) (s' : SyncState)
    (h : get_or_create_point canRead canWrite uid s = (Except.ok i, s'))
    (hprev : (pointAt s' i).parties_count = 1) :
    (wait_for_party canRead canWrite cw sg t uid s).1 =
      (HttpStatus.ok, ApiResponse.success ("Welcome! (second party)") uid) ∧
    (wait_for_party canRead canWrite cw sg t uid s).2.wait_points = s.wait_points ∧
    lookupIdx (wait_for_party canRead canWrite cw sg t uid s).2.wait_points uid = some i ∧
    (pointAt (wait_for_party canRead canWrite cw sg t uid s).2 i).notify =
      (pointAt s i).notify + 1 ∧
    (pointAt (wait_for_party canRead canWrite cw sg t uid s).2 i).parties_count = 2 := by
  obtain ⟨hfound, hs, hlen⟩ :=
    get_or_create_point_found_of_pos canRead canWrite uid s i s' h (by omega)
  have hrun := wait_for_party_run canRead canWrite cw sg t uid s i s' h
  rw [hs] at hprev
  rw [hs, hprev] at hrun
  rw [hrun]
  refine ⟨rfl, ?_, ?_, ?_, ?_⟩
  · simp [handle_second_party, wait_points_notify_one, wait_points_fetch_add]
  · simp [handle_second_party, wait_points_notify_one, wait_points_fetch_add, hfound]
  · simp [handle_second_party, pointAt_notify_one, pointAt_fetch_add,
      points_length_fetch_add, hlen]
  · simp [handle_second_party, pointAt_notify_one, pointAt_fetch_add,
      points_length_fetch_add, hlen, hprev]

/-- Witness for C4 at a concrete input: key A holds a point with counter
1 (the first party is waiting); the next arrival observes previous 1,
signals once and succeeds, and the registry map still holds the entry. -/
theorem second_party_signals_once_witness :
    get_or_create_point true true "A" ⟨[⟨1, 0⟩], [("A", 0)]⟩ =
      (Except.ok 0, ⟨[⟨1, 0⟩], [("A", 0)]⟩) ∧
    (pointAt ⟨[⟨1, 0⟩], [("A", 0)]⟩ 0).parties_count = 1 ∧
    ((wait_for_party true true true true 10 "A" ⟨[⟨1, 0⟩], [("A", 0)]⟩).1 =
      (HttpStatus.ok, ApiResponse.success ("Welcome! (second party)") "A") ∧
    (wait_for_party true true true true 10 "A" ⟨[⟨1, 0⟩], [("A", 0)]⟩).2.wait_points =
      SyncState.wait_points ⟨[⟨1, 0⟩], [("A", 0)]⟩ ∧
    lookupIdx (wait_for_party true true true true 10 "A"
      ⟨[⟨1, 0⟩], [("A", 0)]⟩).2.wait_points "A" = some 0 ∧
    (pointAt (wait_for_party true true true true 10 "A" ⟨[⟨1, 0⟩], [("A", 0)]⟩).2 0).notify =
      (pointAt ⟨[⟨1, 0⟩], [("A", 0)]⟩ 0).notify + 1 ∧
    (pointAt (wait_for_party true true true true 10 "A"
      ⟨[⟨1, 0⟩], [("A", 0)]⟩).2 0).parties_count = 2) :=
  ⟨rfl, rfl,
    second_party_signals_once true true true true 10 "A"
      ⟨[⟨1, 0⟩], [("A", 0)]⟩ 0 ⟨[⟨1, 0⟩], [("A", 0)]⟩ rfl rfl⟩

/-- C5: the response classification matches the table: a timeout outcome
is rendered with the RequestTimeout status class and a body with status
timeout, a message, and timeout_duration_sec equal to the configured
timeout in seconds; a conflict outcome is rendered with the Conflict
status class and a body with status error and the exact message about
two parties. -/
theorem response_classification_matches_table
    (t : Nat) (uid p : String) (q : Nat) (s s2 : SyncState) :
    (handle_first_party true false t uid s).1 =
      (HttpStatus.requestTimeout, ApiResponse.timeout t uid) ∧
    ApiResponse.timeout t uid =
      { status := ResponseStatus.timeout
        message := "[" ++ uid ++ "] Request timed out"
        timeout_duration_sec := some t } ∧
    (handle_extra_party p q s2).1 =
      (HttpStatus.conflict, ApiResponse.error ("Only 2 parties allowed at a time")) ∧
    ApiResponse.error ("Only 2 parties allowed at a time") =
      { status := ResponseStatus.error
        message := "Only 2 parties allowed at a time"
        timeout_duration_sec := none } := by
  refine ⟨?_, rfl, rfl, rfl⟩
  simp [handle_first_party, cleanup_wait_point]

/-- C6: both registry operations use try-style lock acquisition; when
the acquisition fails the operation returns the distinct
service-unavailable response with the state untouched, the coordinator
does not retry, and no role decision is made for that arrival (the full
handler returns with the state exactly as it was, so no counter was
incremented). -/
theorem registry_contention_service_unavailable
    (w cw sg : Bool) (t : Nat) (uid : String) (s : SyncState)
    (habsent : lookupIdx s.wait_points uid = none) :
    get_or_create_point false w uid s =
      (Except.error ApiResponse.service_unavailable, s) ∧
    get_or_create_point true false uid s =
      (Except.error ApiResponse.service_unavailable, s) ∧
    cleanup_wait_point false uid s =
      (Except.error ApiResponse.service_unavailable, s) ∧
    wait_for_party false w cw sg t uid s = (ApiResponse.service_unavailable, s) ∧
    ApiResponse.service_unavailable =
      (HttpStatus.serviceUnavailable, ApiResponse.error ("Service temporarily unavailable")) := by
  refine ⟨?_, ?_, ?_, ?_, rfl⟩
  · simp [get_or_create_point]
  · simp [get_or_create_point, habsent]
  · simp [cleanup_wait_point]
  · simp [wait_for_party, get_or_create_point]

/-- Witness for C6 at a concrete input: key A is absent from the empty
state, and every failed acquisition yields the service-unavailable
response with the state untouched. -/
theorem registry_contention_service_unavailable_witness :
    lookupIdx (SyncState.wait_points ⟨[], []⟩) "A" = none ∧
    (get_or_create_point false true "A" ⟨[], []⟩ =
      (Except.error ApiResponse.service_unavailable, ⟨[], []⟩) ∧
    get_or_create_point true false "A" ⟨[], []⟩ =
      (Except.error ApiResponse.service_unavailable, ⟨[], []⟩) ∧
    cleanup_wait_point false "A" ⟨[], []⟩ =
      (Except.error ApiResponse.service_unavailable, ⟨[], []⟩) ∧
    wait_for_party false true true true 10 "A" ⟨[], []⟩ =
      (ApiResponse.service_unavailable, ⟨[], []⟩) ∧
    ApiResponse.service_unavailable =
      (HttpStatus.serviceUnavailable, ApiResponse.error ("Service temporarily unavailable"))) :=
  ⟨rfl, registry_contention_service_unavailable true true true 10 "A" ⟨[], []⟩ rfl⟩

/-- C7: the configured timeout is a single integer number of seconds,
validated to lie in the inclusive range 5 to 300 (both endpoints
accepted), defaulting to 10 when unset; outside the range App
construction fails with an error, so the process does not serve
traffic. -/
theorem timeout_validated_bounds (t : Nat) :
    App.new none = Except.ok 10 ∧
    (validate_timeout t = Except.ok () ↔ (5 ≤ t ∧ t ≤ 300)) ∧
    (App.new (some t) = Except.ok t ↔ (5 ≤ t ∧ t ≤ 300)) ∧
    ((∃ e, App.new (some t) = Except.error e) ↔ (t < 5 ∨ 300 < t)) ∧
    validate_timeout 5 = Except.ok () ∧
    validate_timeout 300 = Except.ok () ∧
    (∃ e, App.new (some 4) = Except.error e) ∧
    (∃ e, App.new (some 301) = Except.error e) := by
  have hv : validate_timeout t =
      if t < 5 then
        Except.error ("Timeout cannot be less than " ++ toString 5 ++ " seconds")
      else if t > 300 then
        Except.error ("timeout cannot exceed " ++ toString 300 ++ " seconds")
      else Except.ok () := rfl
  have hnew : App.new (some t) =
      match validate_timeout t with
      | Except.ok _ => Except.ok t
      | Except.error e => Except.error e := rfl
  refine ⟨rfl, ?_, ?_, ?_, rfl, rfl, ⟨_, rfl⟩, ⟨_, rfl⟩⟩
  · rw [hv]
    split_ifs with h1 h2 <;> simp <;> omega
  · rw [hnew, hv]
    split_ifs with h1 h2 <;> simp <;> omega
  · rw [hnew, hv]
    split_ifs with h1 h2 <;> simp <;> omega

/-- C8: removal is idempotent and removing an absent key is not an
error: under an acquired write lock, cleanup succeeds on every state
(whether or not the key is present), the key is absent afterwards, and a
second cleanup also succeeds and changes nothing. -/
theorem cleanup_idempotent (uid : String) (s : SyncState) :
    (cleanup_wait_point true uid s).1 = Except.ok () ∧
    lookupIdx (cleanup_wait_point true uid s).2.wait_points uid = none ∧
    cleanup_wait_point true uid (cleanup_wait_point true uid s).2 =
      (Except.ok (), (cleanup_wait_point true uid s).2) := by
  refine ⟨rfl, ?_, ?_⟩
  · simp [cleanup_wait_point, lookupIdx_removeKey]
  · simp [cleanup_wait_point, removeKey_removeKey]

/-- C9: response bodies embed the key in the message and carry the
timeout field only on timeout: the success message is the bracketed
unique id followed by the role text, the timeout message is the
bracketed unique id followed by the fixed timed-out text, and
timeout_duration_sec is some only in timeout responses, none (and
omitted from the serialized JSON) in success and error responses. -/
theorem response_message_and_timeout_field
    (uid m : String) (t i : Nat) (s : SyncState) :
    (ApiResponse.success m uid).message = "[" ++ uid ++ "] " ++ m ∧
    (ApiResponse.timeout t uid).message = "[" ++ uid ++ "] Request timed out" ∧
    (ApiResponse.success m uid).timeout_duration_sec = none ∧
    (ApiResponse.error m).timeout_duration_sec = none ∧
    (ApiResponse.timeout t uid).timeout_duration_sec = some t ∧
    serializedFields (ApiResponse.success m uid) = ["status", "message"] ∧
    serializedFields (ApiResponse.error m) = ["status", "message"] ∧
    serializedFields (ApiResponse.timeout t uid) =
      ["status", "message", "timeout_duration_sec"] ∧
    (handle_second_party uid i s).1.2.message =
      "[" ++ uid ++ "] " ++ "Welcome! (second party)" := by
  refine ⟨rfl, rfl, rfl, rfl, rfl, ?_, ?_, ?_, rfl⟩ <;>
    simp [serializedFields, ApiResponse.success, ApiResponse.error, ApiResponse.timeout]

/-- C10: get_or_create_point leaves the registry unchanged except for
the requested key: read-lock failure, write-lock failure and the
existing-point path leave the whole state untouched; the creation path
adds exactly one entry mapping the key to a fresh point with counter 0
while the entries and points of every other key are unchanged. -/
theorem get_or_create_point_frame (w : Bool) (uid : String) (s : SyncState) :
    get_or_create_point false w uid s =
      (Except.error ApiResponse.service_unavailable, s) ∧
    (match lookupIdx s.wait_points uid with
     | some i => get_or_create_point true w uid s = (Except.ok i, s)
     | none =>
        get_or_create_point true false uid s =
          (Except.error ApiResponse.service_unavailable, s) ∧
        (get_or_create_point true true uid s).1 = Except.ok s.points.length ∧
        (∀ k, lookupIdx (get_or_create_point true true uid s).2.wait_points k =
          if uid = k then some s.points.length else lookupIdx s.wait_points k) ∧
        (∀ j, pointAt (get_or_create_point true true uid s).2 j =
          if j = s.points.length then WaitPoint.new else pointAt s j)) := by
  refine ⟨by simp [get_or_create_point], ?_⟩
  cases hl : lookupIdx s.wait_points uid with
  | some i => simp [get_or_create_point, hl]
  | none =>
    refine ⟨by simp [get_or_create_point, hl], by simp [get_or_create_point, hl], ?_, ?_⟩
    · intro k
      simp [get_or_create_point, hl, insertKey, lookupIdx, lookupIdx_removeKey]
      by_cases hk : uid = k
      · simp [hk]
      · have hk' : ¬k = uid := fun hh => hk hh.symm
        simp [hk, hk', lookupIdx_removeKey]
    · intro j
      have hstate : (get_or_create_point true true uid s).2.points =
          s.points ++ [WaitPoint.new] := by
        simp [get_or_create_point, hl]
      unfold pointAt
      rw [hstate, getD_append_one]

end SyncPoint
